import Mathlib

/-!
Verification of the Crusoe audit-log client (crusoe-splunk-hec).

This file shallowly embeds the request-signing helpers
(`create_crusoe_signature` from `test_crusoe_auth.py`), the query-string
canonicalization used for signing (`test_url_encoding.py`,
`test_signature_with_params.py`), and the HTTP client
(`CrusoeClient.get_audit_logs` / `get_audit_logs_paginated` from
`crusoe_client.py`) as executable Lean functions, and proves properties
about them.  Machine integers are modelled as `Nat` with explicit
reduction modulo `2 ^ 32` where the underlying algorithm (SHA-256) works
on 32-bit words; fallible operations (base64 decoding, ASCII encoding)
return `Option`.
-/

namespace CrusoeHec

/-! ### 32-bit word helpers (SHA-256 works on 32-bit words) -/

/-- Reduce a natural number to a 32-bit word. -/
def w32 (n : Nat) : Nat := n % 4294967296

/-- Right rotation of a 32-bit word by `n` bits. -/
def rotr32 (n x : Nat) : Nat := w32 ((x >>> n) + ((x % 2 ^ n) <<< (32 - n)))

/-- Bitwise complement of a 32-bit word. -/
def not32 (x : Nat) : Nat := Nat.xor x 4294967295

/-! ### SHA-256 (FIPS 180-4), on lists of bytes represented as `Nat` -/

/-- The 64 SHA-256 round constants (FIPS 180-4 section 4.2.2, written
in decimal). -/
def shaK : List Nat :=
  [1116352408, 1899447441, 3049323471, 3921009573, 961987163,
   1508970993, 2453635748, 2870763221, 3624381080, 310598401,
   607225278, 1426881987, 1925078388, 2162078206, 2614888103,
   3248222580, 3835390401, 4022224774, 264347078, 604807628,
   770255983, 1249150122, 1555081692, 1996064986, 2554220882,
   2821834349, 2952996808, 3210313671, 3336571891, 3584528711,
   113926993, 338241895, 666307205, 773529912, 1294757372,
   1396182291, 1695183700, 1986661051, 2177026350, 2456956037,
   2730485921, 2820302411, 3259730800, 3345764771, 3516065817,
   3600352804, 4094571909, 275423344, 430227734, 506948616,
   659060556, 883997877, 958139571, 1322822218, 1537002063,
   1747873779, 1955562222, 2024104815, 2227730452, 2361852424,
   2428436474, 2756734187, 3204031479, 3329325298]

/-- The SHA-256 initial hash value (FIPS 180-4 section 5.3.3, written
in decimal). -/
def shaH0 : List Nat :=
  [1779033703, 3144134277, 1013904242, 2773480762,
   1359893119, 2600822924, 528734635, 1541459225]

/-- SHA-256 small sigma 0. -/
def ssig0 (x : Nat) : Nat := Nat.xor (Nat.xor (rotr32 7 x) (rotr32 18 x)) (x >>> 3)

/-- SHA-256 small sigma 1. -/
def ssig1 (x : Nat) : Nat := Nat.xor (Nat.xor (rotr32 17 x) (rotr32 19 x)) (x >>> 10)

/-- SHA-256 big sigma 0. -/
def bsig0 (x : Nat) : Nat := Nat.xor (Nat.xor (rotr32 2 x) (rotr32 13 x)) (rotr32 22 x)

/-- SHA-256 big sigma 1. -/
def bsig1 (x : Nat) : Nat := Nat.xor (Nat.xor (rotr32 6 x) (rotr32 11 x)) (rotr32 25 x)

/-- SHA-256 choice function. -/
def chf (x y z : Nat) : Nat := Nat.xor (Nat.land x y) (Nat.land (not32 x) z)

/-- SHA-256 majority function. -/
def majf (x y z : Nat) : Nat :=
  Nat.xor (Nat.xor (Nat.land x y) (Nat.land x z)) (Nat.land y z)

/-- Extend a 16-word message block by `k` further schedule words. -/
def extendW : Nat → List Nat → List Nat
  | 0, ws => ws
  | k + 1, ws =>
      extendW k (ws ++ [w32 (ssig1 (ws.getD (ws.length - 2) 0) +
        ws.getD (ws.length - 7) 0 + ssig0 (ws.getD (ws.length - 15) 0) +
        ws.getD (ws.length - 16) 0)])

/-- One round of the SHA-256 compression function; the state is the list
of the eight working variables. -/
def shaStep (st : List Nat) (wk : Nat × Nat) : List Nat :=
  match st with
  | [a, b, c, d, e, f, g, h] =>
      let t1 := w32 (h + bsig1 e + chf e f g + wk.2 + wk.1)
      let t2 := w32 (bsig0 a + majf a b c)
      [w32 (t1 + t2), a, b, c, w32 (d + t1), e, f, g]
  | st => st

/-- Process one 16-word block, updating the eight-word hash state. -/
def shaBlock (h : List Nat) (block : List Nat) : List Nat :=
  let ws := extendW 48 block
  let st := List.foldl shaStep h (ws.zip shaK)
  List.zipWith (fun x y => w32 (x + y)) h st

/-- Big-endian 8-byte rendering of a natural number. -/
def bigEndian8 (n : Nat) : List Nat :=
  [n / 2 ^ 56 % 256, n / 2 ^ 48 % 256, n / 2 ^ 40 % 256, n / 2 ^ 32 % 256,
   n / 2 ^ 24 % 256, n / 2 ^ 16 % 256, n / 2 ^ 8 % 256, n % 256]

/-- SHA-256 message padding: append `0x80`, zero bytes up to 56 mod 64,
and the 8-byte big-endian bit length. -/
def sha256Pad (msg : List Nat) : List Nat :=
  msg ++ [128] ++ List.replicate ((119 - msg.length % 64) % 64) 0 ++
    bigEndian8 (8 * msg.length)

/-- Group a list of bytes into big-endian 32-bit words. -/
def bytesToWords : List Nat → List Nat
  | b1 :: b2 :: b3 :: b4 :: rest =>
      (((b1 * 256 + b2) * 256 + b3) * 256 + b4) :: bytesToWords rest
  | _ => []

/-- Big-endian bytes of a 32-bit word. -/
def wordToBytes (w : Nat) : List Nat :=
  [w / 16777216 % 256, w / 65536 % 256, w / 256 % 256, w % 256]

/-- Fold the compression function over `n` consecutive 16-word blocks. -/
def shaProcess : Nat → List Nat → List Nat → List Nat
  | 0, h, _ => h
  | n + 1, h, ws => shaProcess n (shaBlock h (ws.take 16)) (ws.drop 16)

/-- SHA-256 of a byte string (bytes as `Nat`), as 32 bytes. -/
def sha256 (msg : List Nat) : List Nat :=
  let ws := bytesToWords (sha256Pad msg)
  let h := shaProcess (ws.length / 16) shaH0 ws
  List.flatten (h.map wordToBytes)

/-- HMAC-SHA256 (RFC 2104): block size 64 bytes, inner pad `0x36`,
outer pad `0x5c`.  This models Python `hmac.new(key, msg,
hashlib.sha256).digest()`. -/
def hmacSha256 (key msg : List Nat) : List Nat :=
  let k0 := if 64 < key.length then sha256 key else key
  let kp := k0 ++ List.replicate (64 - k0.length) 0
  sha256 ((kp.map (Nat.xor 92)) ++ sha256 ((kp.map (Nat.xor 54)) ++ msg))

/-! ### URL-safe base64 (Python `base64.urlsafe_b64encode` / `urlsafe_b64decode`) -/

/-- The URL-safe base64 alphabet. -/
def b64urlAlphabet : List Char :=
  "ABCDEFGHIJKLMNOPQRSTUVWXYZabcdefghijklmnopqrstuvwxyz0123456789-_".data

/-- The character for a 6-bit value. -/
def b64Char (n : Nat) : Char := b64urlAlphabet.getD n 'A'

/-- The 6-bit value of an alphabet character, if any. -/
def b64Value (c : Char) : Option Nat := b64urlAlphabet.indexOf? c

/-- URL-safe base64 encoding of a byte list, with `=` padding, as a list
of characters. -/
def b64urlEncodeChars : List Nat → List Char
  | [] => []
  | [b1] => [b64Char (b1 / 4), b64Char (b1 % 4 * 16), '=', '=']
  | [b1, b2] =>
      [b64Char (b1 / 4), b64Char (b1 % 4 * 16 + b2 / 16), b64Char (b2 % 16 * 4), '=']
  | b1 :: b2 :: b3 :: rest =>
      b64Char (b1 / 4) :: b64Char (b1 % 4 * 16 + b2 / 16) ::
        b64Char (b2 % 16 * 4 + b3 / 64) :: b64Char (b3 % 64) :: b64urlEncodeChars rest

/-- URL-safe base64 encoding of a byte list, with `=` padding.  Models
Python `base64.urlsafe_b64encode(bs).decode('ascii')`. -/
def b64urlEncode (bs : List Nat) : String := String.mk (b64urlEncodeChars bs)

/-- Python `str.rstrip("=")`: remove all trailing `=` characters. -/
def rstripEq (s : String) : String :=
  String.mk ((s.data.reverse.dropWhile (fun c => c = '=')).reverse)

/-- URL-safe base64 decoding of a character list in canonical padded
form: length a multiple of 4, `=` only as final padding.  Models Python
`base64.urlsafe_b64decode` on its canonical inputs (the only inputs the
scripts produce). -/
def b64urlDecodeChars : List Char → Option (List Nat)
  | [] => some []
  | c1 :: c2 :: c3 :: c4 :: rest =>
      match b64Value c1, b64Value c2 with
      | some v1, some v2 =>
          if c3 = '=' then
            if c4 = '=' ∧ rest = [] then some [v1 * 4 + v2 / 16] else none
          else
            match b64Value c3 with
            | some v3 =>
                if c4 = '=' then
                  if rest = [] then some [v1 * 4 + v2 / 16, v2 % 16 * 16 + v3 / 4]
                  else none
                else
                  match b64Value c4 with
                  | some v4 =>
                      (b64urlDecodeChars rest).map
                        (fun bs => (v1 * 4 + v2 / 16) :: (v2 % 16 * 16 + v3 / 4) ::
                          (v3 % 4 * 64 + v4) :: bs)
                  | none => none
            | none => none
      | _, _ => none
  | _ => none

/-- URL-safe base64 decoding of a string. -/
def b64urlDecode (s : String) : Option (List Nat) := b64urlDecodeChars s.data

/-- Python `secret_key + '=' * (-len(secret_key) % 4)`: restore base64
padding up to the next multiple of four. -/
def pad_secret (s : String) : String :=
  s ++ String.mk (List.replicate ((4 - s.length % 4) % 4) '=')

/-! ### ASCII encoding (Python `str.encode('ascii')`) -/

/-- Python `s.encode('ascii')`: the code points of `s` as bytes when all
are below 128, failure otherwise. -/
def asciiEncode (s : String) : Option (List Nat) :=
  if s.data.all (fun c => c.toNat < 128) then some (s.data.map Char.toNat)
  else none

/-! ### Timezone-aware `datetime` values and `isoformat`
(`datetime.datetime.now(datetime.timezone.utc)` and friends) -/

/-- A timezone-aware Python `datetime` value.  `offsetMinutes` is the
UTC offset of its timezone (0 for `timezone.utc`). -/
structure PyDateTime where
  year : Nat
  month : Nat
  day : Nat
  hour : Nat
  minute : Nat
  second : Nat
  microsecond : Nat
  offsetMinutes : Int
deriving DecidableEq, Repr

/-- Zero-pad a number to two digits. -/
def pad2 (n : Nat) : String := if n < 10 then "0" ++ toString n else toString n

/-- Zero-pad a number to four digits. -/
def pad4 (n : Nat) : String :=
  if n < 10 then "000" ++ toString n
  else if n < 100 then "00" ++ toString n
  else if n < 1000 then "0" ++ toString n
  else toString n

/-- Zero-pad a number to six digits. -/
def pad6 (n : Nat) : String :=
  if n < 10 then "00000" ++ toString n
  else if n < 100 then "0000" ++ toString n
  else if n < 1000 then "000" ++ toString n
  else if n < 10000 then "00" ++ toString n
  else if n < 100000 then "0" ++ toString n
  else toString n

/-- The `+HH:MM` / `-HH:MM` UTC-offset suffix of an aware datetime. -/
def tzSuffix (off : Int) : String :=
  if off < 0 then "-" ++ pad2 ((-off).toNat / 60) ++ ":" ++ pad2 ((-off).toNat % 60)
  else "+" ++ pad2 (off.toNat / 60) ++ ":" ++ pad2 (off.toNat % 60)

/-- Python `datetime.isoformat()` for an aware value: a literal `T`
separator, a fractional part only when `microsecond` is nonzero, and the
UTC-offset suffix. -/
def isoformat (dt : PyDateTime) : String :=
  pad4 dt.year ++ "-" ++ pad2 dt.month ++ "-" ++ pad2 dt.day ++ "T" ++
    pad2 dt.hour ++ ":" ++ pad2 dt.minute ++ ":" ++ pad2 dt.second ++
    (if dt.microsecond = 0 then "" else "." ++ pad6 dt.microsecond) ++
    tzSuffix dt.offsetMinutes

/-- Python `dt.replace(microsecond=u)`. -/
def replace_microsecond (dt : PyDateTime) (u : Nat) : PyDateTime :=
  { dt with microsecond := u }

/-! ### Query-parameter canonicalization

From `test_url_encoding.py` (and identically in
`test_signature_with_params.py`):
`sorted_params = sorted(params.items())` followed by
`"&".join([f"{k}={v}" for k, v in sorted_params])`.
A parameter map is modelled as a list of key/value pairs; Python
`sorted` compares `(key, value)` tuples lexicographically. -/

/-- Lexicographic comparison of `(key, value)` pairs, as Python `sorted`
performs on `dict.items()`: tuples compare componentwise, and strings
compare lexicographically by code point, which is the lexicographic
order on their character lists. -/
def pairLe (p q : String × String) : Prop :=
  p.1.data < q.1.data ∨ (p.1.data = q.1.data ∧ p.2.data ≤ q.2.data)

instance : DecidableRel pairLe := fun p q =>
  inferInstanceAs (Decidable (p.1.data < q.1.data ∨
    (p.1.data = q.1.data ∧ p.2.data ≤ q.2.data)))

instance : IsTotal (String × String) pairLe where
  total p q := by
    rcases lt_trichotomy p.1.data q.1.data with h | h | h
    · exact Or.inl (Or.inl h)
    · rcases le_total p.2.data q.2.data with h2 | h2
      · exact Or.inl (Or.inr ⟨h, h2⟩)
      · exact Or.inr (Or.inr ⟨h.symm, h2⟩)
    · exact Or.inr (Or.inl h)

instance : IsTrans (String × String) pairLe where
  trans p q r hpq hqr := by
    rcases hpq with h1 | ⟨e1, v1⟩
    · rcases hqr with h2 | ⟨e2, _⟩
      · exact Or.inl (h1.trans h2)
      · exact Or.inl (e2 ▸ h1)
    · rcases hqr with h2 | ⟨e2, v2⟩
      · exact Or.inl (e1 ▸ h2)
      · exact Or.inr ⟨e1.trans e2, v1.trans v2⟩

instance : IsAntisymm (String × String) pairLe where
  antisymm p q hpq hqp := by
    rcases hpq with h1 | ⟨e1, v1⟩
    · rcases hqp with h2 | ⟨e2, _⟩
      · exact absurd (h1.trans h2) (lt_irrefl _)
      · exact absurd h1 (e2 ▸ lt_irrefl _)
    · rcases hqp with h2 | ⟨e2, v2⟩
      · exact absurd h2 (e1 ▸ lt_irrefl _)
      · exact Prod.ext (String.ext e1) (String.ext (le_antisymm v1 v2))

/-- The canonicalized query string: sort the `(key, value)` pairs as
Python `sorted` does, render each as `key=value` with the literal
unencoded value, and join with `&`. -/
def canonicalize (params : List (String × String)) : String :=
  String.intercalate "&" ((List.insertionSort pairLe params).map
    (fun kv => kv.1 ++ "=" ++ kv.2))

/-! ### The signer: `create_crusoe_signature` from `test_crusoe_auth.py` -/

/-- The signature scheme version embedded in the authorization header. -/
def signature_version : String := "1.0"

/-- `create_crusoe_signature(access_key_id, secret_key, method, path,
query_params)` from `test_crusoe_auth.py`, with the wall-clock reading
`datetime.datetime.now(datetime.timezone.utc)` made an explicit `now`
argument.  Returns the `(timestamp, authorization_header)` pair, or
`none` when the secret is not valid base64 after re-padding or the
payload is not pure ASCII (the places the Python raises). -/
def create_crusoe_signature (access_key_id secret_key method path : String)
    (query_params : String) (now : PyDateTime) : Option (String × String) :=
  let dt := replace_microsecond now 0
  let timestamp := isoformat dt
  let payload := path ++ "\n" ++ query_params ++ "\n" ++ method ++ "\n" ++ timestamp ++ "\n"
  match b64urlDecode (pad_secret secret_key), asciiEncode payload with
  | some decoded_secret, some payload_bytes =>
      let signature := rstripEq (b64urlEncode (hmacSha256 decoded_secret payload_bytes))
      some (timestamp,
        "Bearer " ++ (signature_version ++ ":" ++ access_key_id ++ ":" ++ signature))
  | _, _ => none

/-! ### `CrusoeClient` (`crusoe_client.py`) and its configuration (`config.py`) -/

/-- `CrusoeConfig` from `config.py`. -/
structure CrusoeConfig where
  api_token : String
  base_url : String
  organization_id : String
deriving DecidableEq, Repr

/-- `AppConfig` from `config.py` (the fields the claims are about). -/
structure AppConfig where
  batch_size : Nat
  timeout : Nat
  max_retries : Nat
deriving DecidableEq, Repr

/-- The `AppConfig` field defaults from `config.py`:
`batch_size=100`, `timeout=30`, `max_retries=3`. -/
def default_app_config : AppConfig := ⟨100, 30, 3⟩

/-- The headers installed on the session by
`CrusoeClient._create_session` — in particular a fixed
`Authorization: Bearer {api_token}` header, set once for the whole
session. -/
def session_headers (cfg : CrusoeConfig) : List (String × String) :=
  [("Authorization", "Bearer " ++ cfg.api_token),
   ("Content-Type", "application/json"),
   ("User-Agent", "crusoe-splunk-hec/1.0")]

/-- The audit-log collection URL built in `get_audit_logs`. -/
def audit_logs_url (cfg : CrusoeConfig) : String :=
  cfg.base_url ++ "/organizations/" ++ cfg.organization_id ++ "/audit-logs"

/-- The `status_forcelist` of the retry strategy in `_create_session`. -/
def status_forcelist : List Nat := [429, 500, 502, 503, 504]

/-- The `total` retry budget of the retry strategy in `_create_session`
(hard-coded to 3). -/
def retry_total : Nat := 3

/-- A parsed JSON response body: either a JSON object (whose `items`
field, when present, is the log list) or any other JSON value.
`rendered` is the textual form interpolated into error messages. -/
inductive JsonBody (α : Type) where
  | obj (items : Option (List α)) (rendered : String)
  | other (rendered : String)
deriving DecidableEq, Repr

/-- The rendered text of a JSON body. -/
def JsonBody.render : JsonBody α → String
  | .obj _ r => r
  | .other r => r

/-- An HTTP response: a status code, and `body = none` when the body is
not parseable as JSON. -/
structure HttpResponse (α : Type) where
  status : Nat
  body : Option (JsonBody α)
deriving DecidableEq, Repr

/-- One `session.get` under the urllib3 `Retry` strategy of
`_create_session` (GET is in the configured method whitelist).  The
server is modelled as the stream `responses`, giving the response to the
`n`-th attempt.  A status in `status_forcelist` consumes a retry from
the budget; when the budget is spent the session raises
(`MaxRetryError`), modelled as `none`.  Returns the final response (or
`none`) together with the number of attempts issued.  `budget` is the
number of attempts still allowed. -/
def retry_go (responses : Nat → HttpResponse α) : Nat → Nat → Option (HttpResponse α) × Nat
  | 0, made => (none, made)
  | budget + 1, made =>
      let r := responses made
      if r.status ∈ status_forcelist then
        if budget = 0 then (none, made + 1)
        else retry_go responses budget (made + 1)
      else (some r, made + 1)

/-- `session.get` with the client's retry strategy: urllib3 allows the
initial attempt plus `total` retries. -/
def session_get (responses : Nat → HttpResponse α) : Option (HttpResponse α) × Nat :=
  retry_go responses (retry_total + 1) 0

/-- The outcome of one `get_audit_logs` call, as seen by its caller:
a list of logs, a raised `CrusoeAPIError`, or a raised exception of any
other Python class. -/
inductive FetchOutcome (α : Type) where
  | ok (logs : List α)
  | apiErr (msg : String)
  | pyExc (msg : String)
deriving DecidableEq, Repr

/-- The prefix of every `CrusoeAPIError` message in `get_audit_logs`. -/
def api_error_base : String := "Failed to fetch audit logs: "

/-- `str(e)` for the `requests.HTTPError` raised by
`raise_for_status()`. -/
def http_error_str (status : Nat) : String := toString status ++ " Error"

/-- `CrusoeClient.get_audit_logs`, given the response stream of the
server for this call.  Mirrors the source:
`response = self.session.get(...)` (retries inside the session),
`response.raise_for_status()` (raises `HTTPError` for 4xx/5xx, caught
and wrapped in a `CrusoeAPIError` whose message carries the JSON body
when the body parses, else the status code), then
`data = response.json()` (an unparseable body raises a
`RequestException` subclass, wrapped the same way) and
`logs = data.get("items", [])` (a non-object JSON body raises
`AttributeError`, which is not caught here).  Returns the outcome and
the number of HTTP attempts issued. -/
def get_audit_logs (responses : Nat → HttpResponse α) : FetchOutcome α × Nat :=
  match session_get responses with
  | (none, n) => (.apiErr (api_error_base ++ "Max retries exceeded"), n)
  | (some r, n) =>
      if 400 ≤ r.status ∧ r.status < 600 then
        match r.body with
        | some b =>
            (.apiErr (api_error_base ++ http_error_str r.status ++ " - " ++ b.render), n)
        | none =>
            (.apiErr (api_error_base ++ http_error_str r.status ++ " - Status: " ++
              toString r.status), n)
      else
        match r.body with
        | some (.obj items _) => (.ok (items.getD []), n)
        | some (.other _) => (.pyExc "AttributeError", n)
        | none => (.apiErr (api_error_base ++ "Invalid JSON body"), n)

/-- The query parameters built by `get_audit_logs`: each of the four
parameters is added only when its value is truthy in Python (`None` is
falsy; the integer 0 is falsy; an aware `datetime` is always truthy). -/
def build_params (start_time end_time : Option PyDateTime)
    (limit offset : Option Nat) : List (String × String) :=
  (match start_time with
   | some t => [("start_time", isoformat t)]
   | none => []) ++
  (match end_time with
   | some t => [("end_time", isoformat t)]
   | none => []) ++
  (match limit with
   | some l => if l = 0 then [] else [("limit", toString l)]
   | none => []) ++
  (match offset with
   | some o => if o = 0 then [] else [("offset", toString o)]
   | none => [])

/-- One page request issued by the paginated fetch: the loop's offset
value, the query parameters passed to `session.get`, and the session
headers the request is sent with. -/
structure PageRequest where
  offset : Nat
  params : List (String × String)
  headers : List (String × String)
deriving DecidableEq, Repr

/-- The Python truthiness test `max_pages and page_count >= max_pages`
guarding the pagination loop (`None` and 0 are falsy). -/
def max_pages_reached (max_pages : Option Nat) (page_count : Nat) : Bool :=
  match max_pages with
  | none => false
  | some m => if m = 0 then false else decide (m ≤ page_count)

/-- The loop of `CrusoeClient.get_audit_logs_paginated`.  The `k`-th
element of `outcomes` is the outcome of the `k`-th `get_audit_logs`
call (each such call hides its own HTTP retries); when the loop issues
more calls than `outcomes` provides, the server is exhausted and
answers with an empty page.  Mirrors the source: stop before the
request when `max_pages` is truthy and reached; on `CrusoeAPIError`
re-raise; on any other exception log and `break` (returning the logs
accumulated so far); on an empty page `break`; otherwise append the
page, advance `offset` by the number of items received, and stop after
a short page.  The inter-page `time.sleep(0.1)` has no observable
effect in this model.  Returns the result as the caller sees it
together with the list of issued page requests. -/
def pag_go (cfg : CrusoeConfig) (st et : Option PyDateTime) (page_size : Nat)
    (max_pages : Option Nat) (outcomes : List (FetchOutcome α))
    (offset page_count : Nat) (acc : List α) :
    Except String (List α) × List PageRequest :=
  if max_pages_reached max_pages page_count then (.ok acc, [])
    else
      let req : PageRequest :=
        ⟨offset, build_params st et (some page_size) (some offset), session_headers cfg⟩
      match outcomes with
      | [] => (.ok acc, [req])
      | o :: rest =>
        match o with
        | .apiErr m => (.error m, [req])
        | .pyExc _ => (.ok acc, [req])
        | .ok logs =>
          if logs.isEmpty then (.ok acc, [req])
          else if logs.length < page_size then (.ok (acc ++ logs), [req])
          else
            let r := pag_go cfg st et page_size max_pages rest (offset + logs.length)
              (page_count + 1) (acc ++ logs)
            (r.1, req :: r.2)

/-- `CrusoeClient.get_audit_logs_paginated`: run the loop from
`offset = 0`, `page_count = 0`, empty accumulator. -/
def get_audit_logs_paginated (cfg : CrusoeConfig) (st et : Option PyDateTime)
    (page_size : Nat) (max_pages : Option Nat) (outcomes : List (FetchOutcome α)) :
    Except String (List α) × List PageRequest :=
  pag_go cfg st et page_size max_pages outcomes 0 0 []

/-! ### Specification-side pagination functions

These two definitions follow the words of the specification (append the
pages in order, stop at the first empty or short page; requests start at
offset 0 and each successful page advances the offset by the number of
items received), to be compared with the embedded client code. -/

/-- The items the specification says a paginated fetch over these pages
returns. -/
def spec_items (page_size : Nat) : List (List α) → List α
  | [] => []
  | p :: rest =>
      if p.isEmpty then []
      else if p.length < page_size then p
      else p ++ spec_items page_size rest

/-- The request offsets the specification says a paginated fetch over
these pages issues, starting from `off`. -/
def spec_request_offsets (page_size off : Nat) : List (List α) → List Nat
  | [] => [off]
  | p :: rest =>
      if p.isEmpty then [off]
      else if p.length < page_size then [off]
      else off :: spec_request_offsets page_size (off + p.length) rest

deriving instance DecidableEq for Except

/-- A concrete configuration used for evaluating the client on explicit
inputs. -/
def cfg0 : CrusoeConfig := ⟨"tok", "https://api.crusoecloud.com/v1alpha5", "org"⟩

/-- A concrete wall-clock reading (the fixed documentation timestamp
`2022-03-01T01:23:45+09:00` used in `debug_crusoe_auth.py`). -/
def dt0 : PyDateTime := ⟨2022, 3, 1, 1, 23, 45, 0, 540⟩

/-! ## Claims -/

/-- C1: for every key id, decoded secret, method, path, canonicalized
query string and timestamp, the signature produced by
`create_crusoe_signature` equals the HMAC-SHA256 digest, keyed by the
decoded secret, of the ASCII bytes of
`<path>\n<canonicalized_query>\n<METHOD>\n<timestamp>\n`, encoded with
URL-safe base64 and with all trailing `=` padding characters removed
(and the authorization header is `Bearer <version>:<key_id>:<that
signature>`). -/
theorem C1_signature_formula (access_key_id secret_key method path query_params : String)
    (now : PyDateTime) (key payload_bytes : List Nat)
    (hsec : b64urlDecode (pad_secret secret_key) = some key)
    (hpay : asciiEncode (path ++ "\n" ++ query_params ++ "\n" ++ method ++ "\n" ++
      isoformat (replace_microsecond now 0) ++ "\n") = some payload_bytes) :
    create_crusoe_signature access_key_id secret_key method path query_params now =
      some (isoformat (replace_microsecond now 0),
        "Bearer " ++ (signature_version ++ ":" ++ access_key_id ++ ":" ++
          rstripEq (b64urlEncode (hmacSha256 key payload_bytes)))) := by
  simp only [create_crusoe_signature, hsec, hpay]

/-- Witness for C1 at a concrete input: the secret `QUJD` decodes to the
bytes of `ABC`, and the signing operation produces exactly the stripped
base64url HMAC-SHA256 of the payload bytes. -/
theorem C1_signature_formula_witness :
    b64urlDecode (pad_secret "QUJD") = some [65, 66, 67] ∧
    create_crusoe_signature "ak" "QUJD" "GET" "/v1alpha5/locations" "" dt0 =
      some (isoformat (replace_microsecond dt0 0),
        "Bearer " ++ (signature_version ++ ":" ++ "ak" ++ ":" ++
          rstripEq (b64urlEncode (hmacSha256 [65, 66, 67]
            (("/v1alpha5/locations" ++ "\n" ++ "" ++ "\n" ++ "GET" ++ "\n" ++
              isoformat (replace_microsecond dt0 0) ++ "\n").data.map Char.toNat))))) :=
  ⟨by decide, C1_signature_formula "ak" "QUJD" "GET" "/v1alpha5/locations" "" dt0
    [65, 66, 67] _ (by decide) (by decide)⟩

/-- C2 (code evaluated at the failing input): the paginated fetch of
`crusoe_client.py` sends every page request with the session's fixed
`Authorization: Bearer {api_token}` header installed once by
`_create_session`; with two pages both requests carry the identical
credential `Bearer tok`, which is the raw `api_token` and not a
per-request `<version>:<key_id>:<signature>` value. -/
theorem C2_static_bearer_reuse :
    (get_audit_logs_paginated cfg0 none none 2 none
        [FetchOutcome.ok [1, 2], FetchOutcome.ok [3]]).2.map
        (fun r => r.headers.lookup "Authorization") =
      [some "Bearer tok", some "Bearer tok"] ∧
    cfg0.api_token = "tok" := by decide

/-- C7: canonicalization is a deterministic pure sort-and-join,
independent of insertion order; the empty map yields the empty string;
`canonicalize({"b":2,"a":1}) = "a=1&b=2"` with the literal unencoded
values; and the keys of the sorted pair list are in lexicographically
non-decreasing order. -/
theorem C7_canonicalize_sort_join :
    (∀ l1 l2 : List (String × String), l1.Perm l2 → canonicalize l1 = canonicalize l2) ∧
    canonicalize [] = "" ∧
    canonicalize [("b", "2"), ("a", "1")] = "a=1&b=2" ∧
    ∀ l : List (String × String),
      List.Sorted (fun a b : String => a.data ≤ b.data)
        ((List.insertionSort pairLe l).map Prod.fst) := by
  refine ⟨?_, rfl, by decide, ?_⟩
  · intro l1 l2 h
    have e : List.insertionSort pairLe l1 = List.insertionSort pairLe l2 :=
      List.eq_of_perm_of_sorted
        (((List.perm_insertionSort pairLe l1).trans h).trans
          (List.perm_insertionSort pairLe l2).symm)
        (List.sorted_insertionSort pairLe l1) (List.sorted_insertionSort pairLe l2)
    unfold canonicalize
    rw [e]
  · intro l
    exact List.Pairwise.map Prod.fst
      (fun a b hab => by
        rcases hab with h | ⟨h, _⟩
        · exact le_of_lt h
        · exact le_of_eq h)
      (List.sorted_insertionSort pairLe l)

/-- Witness for C7 at concrete inputs: the two insertion orders of the
same two-entry map canonicalize identically. -/
theorem C7_canonicalize_sort_join_witness :
    canonicalize [("b", "2"), ("a", "1")] = canonicalize [("a", "1"), ("b", "2")] :=
  C7_canonicalize_sort_join.1 _ _ (by decide)

/-- The page request the loop issues at a given offset. -/
def page_request (cfg : CrusoeConfig) (st et : Option PyDateTime)
    (page_size o : Nat) : PageRequest :=
  ⟨o, build_params st et (some page_size) (some o), session_headers cfg⟩

/-- Over a stream of successful pages the pagination loop returns the
accumulator followed by the specification-side item list, and issues
exactly the specification-side request offsets. -/
theorem pag_go_ok_pages (cfg : CrusoeConfig) (st et : Option PyDateTime)
    (page_size : Nat) (pages : List (List α)) :
    ∀ (offset page_count : Nat) (acc : List α),
    pag_go cfg st et page_size none (pages.map FetchOutcome.ok) offset page_count acc =
      (Except.ok (acc ++ spec_items page_size pages),
       (spec_request_offsets page_size offset pages).map
         (page_request cfg st et page_size)) := by
  induction pages with
  | nil =>
      intro offset page_count acc
      simp [pag_go, max_pages_reached, spec_items, spec_request_offsets, page_request]
  | cons p rest ih =>
      intro offset page_count acc
      unfold pag_go
      by_cases hp : p.isEmpty
      · simp [max_pages_reached, hp, spec_items, spec_request_offsets, page_request]
      · by_cases hlen : p.length < page_size
        · simp [max_pages_reached, hp, hlen, spec_items, spec_request_offsets, page_request]
        · simp [max_pages_reached, hp, hlen, spec_items, spec_request_offsets,
            page_request, ih, List.append_assoc]

set_option maxRecDepth 40000 in
/-- C3: on every stream of successful pages the paginated fetch starts
at offset 0, advances the offset by the number of items received,
appends the pages in order, stops at the first empty or short page, and
returns the concatenation; concretely, pages of sizes `[100, 100, 37]`
with `page_size = 100` give exactly 3 requests at offsets 0, 100, 200
and 237 items, and an empty first page gives the empty list. -/
theorem C3_pagination_termination (α : Type) :
    (∀ (cfg : CrusoeConfig) (st et : Option PyDateTime) (page_size : Nat)
       (pages : List (List α)),
      get_audit_logs_paginated cfg st et page_size none (pages.map FetchOutcome.ok) =
        (Except.ok (spec_items page_size pages),
         (spec_request_offsets page_size 0 pages).map
           (page_request cfg st et page_size))) ∧
    (get_audit_logs_paginated cfg0 none none 100 none
        [FetchOutcome.ok (List.range 100), FetchOutcome.ok (List.range 100),
         FetchOutcome.ok (List.range 37)] =
      (Except.ok (List.range 100 ++ (List.range 100 ++ List.range 37)),
       [⟨0, [("limit", "100")], session_headers cfg0⟩,
        ⟨100, [("limit", "100"), ("offset", "100")], session_headers cfg0⟩,
        ⟨200, [("limit", "100"), ("offset", "200")], session_headers cfg0⟩])) ∧
    (List.range 100 ++ (List.range 100 ++ List.range 37)).length = 237 ∧
    (get_audit_logs_paginated cfg0 none none 100 none [FetchOutcome.ok ([] : List Nat)] =
      (Except.ok [], [⟨0, [("limit", "100")], session_headers cfg0⟩])) := by
  refine ⟨?_, by decide, by decide, by decide⟩
  intro cfg st et page_size pages
  simpa [get_audit_logs_paginated] using
    pag_go_ok_pages cfg st et page_size pages 0 0 []

/-- Witness for C3 at a concrete input: a full page of two items
followed by a short page of one. -/
theorem C3_pagination_termination_witness :
    get_audit_logs_paginated cfg0 none none 2 none ([[7, 8], [9]].map FetchOutcome.ok) =
      (Except.ok (spec_items 2 [[7, 8], [9]]),
       (spec_request_offsets 2 0 [[7, 8], [9]]).map (page_request cfg0 none none 2)) :=
  (C3_pagination_termination Nat).1 cfg0 none none 2 [[7, 8], [9]]

/-- C10: each of `start_time`, `end_time`, `limit`, `offset` is put into
the query parameters exactly when its value is truthy in Python (`None`
and 0 are falsy), and the first request of every paginated fetch has
offset 0 and therefore carries no `offset` parameter at all. -/
theorem C10_truthy_param_inclusion (α : Type) :
    (∀ (st et : Option PyDateTime) (l o : Option Nat),
      ("start_time" ∈ (build_params st et l o).map Prod.fst ↔ st.isSome = true) ∧
      ("end_time" ∈ (build_params st et l o).map Prod.fst ↔ et.isSome = true) ∧
      ("limit" ∈ (build_params st et l o).map Prod.fst ↔ ∃ n, l = some n ∧ n ≠ 0) ∧
      ("offset" ∈ (build_params st et l o).map Prod.fst ↔ ∃ n, o = some n ∧ n ≠ 0)) ∧
    (∀ (cfg : CrusoeConfig) (st et : Option PyDateTime) (page_size : Nat)
       (max_pages : Option Nat) (outcomes : List (FetchOutcome α)),
      ∃ rs, (get_audit_logs_paginated cfg st et page_size max_pages outcomes).2 =
        page_request cfg st et page_size 0 :: rs ∧
        "offset" ∉ (page_request cfg st et page_size 0).params.map Prod.fst) := by
  constructor
  · intro st et l o
    refine ⟨?_, ?_, ?_, ?_⟩ <;>
      (cases st <;> cases et <;> cases l <;> cases o <;>
        simp [build_params] <;> split_ifs <;> simp_all)
  · intro cfg st et page_size max_pages outcomes
    have hmp : max_pages_reached max_pages 0 = false := by
      cases max_pages with
      | none => rfl
      | some m =>
          by_cases hm : m = 0 <;> simp [max_pages_reached, hm, Nat.pos_of_ne_zero]
    have hoff : "offset" ∉ (page_request cfg st et page_size 0).params.map Prod.fst := by
      cases st <;> cases et <;>
        simp [page_request, build_params] <;> split_ifs <;> simp_all
    refine ⟨?_, ?_, hoff⟩
    · exact (get_audit_logs_paginated cfg st et page_size max_pages outcomes).2.tail
    · unfold get_audit_logs_paginated pag_go
      rw [hmp]
      cases outcomes with
      | nil => simp [page_request]
      | cons o1 rest =>
          cases o1 <;> simp [page_request] <;> split_ifs <;> simp

/-- Witness for C10 at a concrete input: with `limit = 100` and
`offset = 0` the `offset` parameter is characterized by the truthiness
condition, which fails at 0. -/
theorem C10_truthy_param_inclusion_witness :
    "offset" ∈ (build_params none none (some 100) (some 0)).map Prod.fst ↔
      ∃ n, (some 0 : Option Nat) = some n ∧ n ≠ 0 :=
  (((C10_truthy_param_inclusion Nat).1 none none (some 100) (some 0)).2.2).2

/-- C4 counterexample: the client has a single error kind,
`CrusoeAPIError`, for every API failure — a 401 authentication failure
and a 404 missing-resource failure surface as the very same kind of
error (differing only in the message text), so no distinct
authentication/authorization error kind exists. -/
theorem C4_counterexample :
    get_audit_logs (fun _ => (⟨401, some (JsonBody.other "unauthorized")⟩ : HttpResponse Nat)) =
      (FetchOutcome.apiErr "Failed to fetch audit logs: 401 Error - unauthorized", 1) ∧
    get_audit_logs (fun _ => (⟨404, some (JsonBody.other "not found")⟩ : HttpResponse Nat)) =
      (FetchOutcome.apiErr "Failed to fetch audit logs: 404 Error - not found", 1) := by
  decide

/-- C4 (amended): a fetch answered with 401 or 403 issues exactly one
request (those statuses are not in the retry forcelist) and immediately
raises the client's `CrusoeAPIError`, whose message carries the
server's body whenever the body is available as JSON. -/
theorem C4_auth_failure_one_request (responses : Nat → HttpResponse α)
    (h : (responses 0).status = 401 ∨ (responses 0).status = 403) :
    ∃ msg, get_audit_logs responses = (FetchOutcome.apiErr msg, 1) ∧
      ∀ b, (responses 0).body = some b →
        msg = api_error_base ++ http_error_str (responses 0).status ++ " - " ++ b.render := by
  have hst : ¬ (responses 0).status ∈ status_forcelist := by
    rcases h with h | h <;> rw [h] <;> decide
  have hrange : 400 ≤ (responses 0).status ∧ (responses 0).status < 600 := by
    rcases h with h | h <;> rw [h] <;> omega
  cases hb : (responses 0).body with
  | none =>
      refine ⟨api_error_base ++ http_error_str (responses 0).status ++ " - Status: " ++
        toString (responses 0).status, ?_, ?_⟩
      · simp [get_audit_logs, session_get, retry_go, retry_total, hst, hb, hrange.1, hrange.2]
      · intro b hb2
        exact absurd hb2 (by simp)
  | some b =>
      refine ⟨api_error_base ++ http_error_str (responses 0).status ++ " - " ++ b.render,
        ?_, ?_⟩
      · simp [get_audit_logs, session_get, retry_go, retry_total, hst, hb, hrange.1, hrange.2]
      · intro b2 hb2
        cases hb2
        rfl

/-- Witness for C4 (amended) at a concrete input: a single 401 response
produces the API error after exactly one request. -/
theorem C4_auth_failure_one_request_witness :
    ∃ msg, get_audit_logs (fun _ => (⟨401, some (JsonBody.other "denied")⟩ : HttpResponse Nat)) =
      (FetchOutcome.apiErr msg, 1) := by
  obtain ⟨m, hm, -⟩ := C4_auth_failure_one_request
    (fun _ => (⟨401, some (JsonBody.other "denied")⟩ : HttpResponse Nat)) (Or.inl rfl)
  exact ⟨m, hm⟩

/-- C5 counterexample: against an endpoint that always answers 503 the
client issues 4 attempts (the hard-coded `Retry(total=3)` allows the
initial attempt plus three retries), which differs from the configured
`max_retries` bound, whose `config.py` default is 3. -/
theorem C5_counterexample :
    (get_audit_logs (fun _ => (⟨503, some (JsonBody.other "unavailable")⟩ :
      HttpResponse Nat))).2 = 4 ∧
    default_app_config.max_retries = 3 ∧
    (4 : Nat) ≠ default_app_config.max_retries := by decide

/-- When every response has a status in the retry forcelist, the
session exhausts its whole budget: `budget` further attempts are issued
on top of the `made` already made. -/
theorem retry_go_all_transient (responses : Nat → HttpResponse α)
    (h : ∀ n, (responses n).status ∈ status_forcelist) :
    ∀ budget made, retry_go responses budget made = (none, made + budget) := by
  intro budget
  induction budget with
  | zero => intro made; simp [retry_go]
  | succ b ih =>
      intro made
      unfold retry_go
      rw [if_pos (h made)]
      by_cases hb : b = 0
      · subst hb; simp
      · rw [if_neg hb, ih (made + 1)]
        simp [Nat.add_assoc, Nat.add_comm 1 b]

/-- C5 (amended): a fetch whose responses all carry a transient status
(429, 500, 502, 503, 504 — the retry forcelist) issues exactly
`total + 1 = 4` attempts (the bound is the hard-coded urllib3
`Retry(total=3)`, not the configured `max_retries`) and then escalates
to the client's API error. -/
theorem C5_transient_retry_bound (responses : Nat → HttpResponse α)
    (h : ∀ n, (responses n).status ∈ status_forcelist) :
    get_audit_logs responses =
      (FetchOutcome.apiErr (api_error_base ++ "Max retries exceeded"), retry_total + 1) ∧
    retry_total + 1 = 4 := by
  refine ⟨?_, rfl⟩
  have e := retry_go_all_transient responses h (retry_total + 1) 0
  simp only [session_get, get_audit_logs, e, Nat.zero_add]

/-- Witness for C5 (amended) at a concrete input: the always-503
endpoint. -/
theorem C5_transient_retry_bound_witness :
    get_audit_logs (fun _ => (⟨503, some (JsonBody.other "unavailable")⟩ : HttpResponse Nat)) =
      (FetchOutcome.apiErr (api_error_base ++ "Max retries exceeded"), retry_total + 1) ∧
    retry_total + 1 = 4 :=
  C5_transient_retry_bound _ (fun n => by decide)

/-- C6 counterexample: a non-`CrusoeAPIError` exception on the second
page (here the `AttributeError` raised by `data.get` when the JSON body
is not an object) is swallowed by the `except Exception` branch of the
pagination loop, and the partial first page is returned as a success. -/
theorem C6_counterexample :
    (get_audit_logs_paginated cfg0 none none 100 none
        [FetchOutcome.ok (List.range 100), FetchOutcome.pyExc "AttributeError"]).1 =
      Except.ok (List.range 100) := by decide

/-- A `CrusoeAPIError` outcome reached after any number of full pages
is re-raised by the pagination loop. -/
theorem pag_go_api_error (cfg : CrusoeConfig) (st et : Option PyDateTime)
    (page_size : Nat) (m : String) (rest : List (FetchOutcome α))
    (pref : List (List α)) :
    ∀ (_ : ∀ p ∈ pref, p.length = page_size) (_ : page_size ≠ 0)
      (offset page_count : Nat) (acc : List α),
    (pag_go cfg st et page_size none (pref.map FetchOutcome.ok ++
      FetchOutcome.apiErr m :: rest) offset page_count acc).1 = Except.error m := by
  induction pref with
  | nil =>
      intro _ _ offset page_count acc
      simp [pag_go, max_pages_reached]
  | cons p ps ih =>
      intro hfull hps offset page_count acc
      have hp1 : p.length = page_size := hfull p (by simp)
      have hne : p.isEmpty = false := by
        cases p with
        | nil => simp at hp1; exact absurd hp1.symm hps
        | cons a as => rfl
      unfold pag_go
      rw [show max_pages_reached none page_count = false from rfl]
      simp only [Bool.false_eq_true, if_false, List.map_cons, List.cons_append, hne,
        Bool.false_eq_true, if_false, hp1, lt_irrefl, if_false]
      have hrec := ih (fun q hq => hfull q (List.mem_cons_of_mem p hq)) hps
        (offset + p.length) (page_count + 1) (acc ++ p)
      rw [hp1] at hrec
      exact hrec

/-- Any other exception reached after any number of full pages makes
the pagination loop break and return the accumulated prefix as a
success. -/
theorem pag_go_py_exc (cfg : CrusoeConfig) (st et : Option PyDateTime)
    (page_size : Nat) (e : String) (rest : List (FetchOutcome α))
    (pref : List (List α)) :
    ∀ (_ : ∀ p ∈ pref, p.length = page_size) (_ : page_size ≠ 0)
      (offset page_count : Nat) (acc : List α),
    (pag_go cfg st et page_size none (pref.map FetchOutcome.ok ++
      FetchOutcome.pyExc e :: rest) offset page_count acc).1 =
      Except.ok (acc ++ pref.flatten) := by
  induction pref with
  | nil =>
      intro _ _ offset page_count acc
      simp [pag_go, max_pages_reached]
  | cons p ps ih =>
      intro hfull hps offset page_count acc
      have hp1 : p.length = page_size := hfull p (by simp)
      have hne : p.isEmpty = false := by
        cases p with
        | nil => simp at hp1; exact absurd hp1.symm hps
        | cons a as => rfl
      unfold pag_go
      rw [show max_pages_reached none page_count = false from rfl]
      simp only [Bool.false_eq_true, if_false, List.map_cons, List.cons_append, hne,
        hp1, lt_irrefl, if_false]
      have hrec := ih (fun q hq => hfull q (List.mem_cons_of_mem p hq)) hps
        (offset + p.length) (page_count + 1) (acc ++ p)
      rw [hp1] at hrec
      rw [hrec]
      simp [List.append_assoc]

/-- C6 (amended): `CrusoeAPIError` failures do propagate out of the
paginated fetch, but every other exception is caught by its
`except Exception` branch, which breaks the loop and returns the
partially accumulated pages as a successful result. -/
theorem C6_error_paths (α : Type) :
    (∀ (cfg : CrusoeConfig) (st et : Option PyDateTime) (page_size : Nat)
       (m : String) (rest : List (FetchOutcome α)) (pref : List (List α)),
      (∀ p ∈ pref, p.length = page_size) → page_size ≠ 0 →
      (get_audit_logs_paginated cfg st et page_size none
        (pref.map FetchOutcome.ok ++ FetchOutcome.apiErr m :: rest)).1 =
        Except.error m) ∧
    (∀ (cfg : CrusoeConfig) (st et : Option PyDateTime) (page_size : Nat)
       (e : String) (rest : List (FetchOutcome α)) (pref : List (List α)),
      (∀ p ∈ pref, p.length = page_size) → page_size ≠ 0 →
      (get_audit_logs_paginated cfg st et page_size none
        (pref.map FetchOutcome.ok ++ FetchOutcome.pyExc e :: rest)).1 =
        Except.ok pref.flatten) := by
  constructor
  · intro cfg st et page_size m rest pref hfull hps
    exact pag_go_api_error cfg st et page_size m rest pref hfull hps 0 0 []
  · intro cfg st et page_size e rest pref hfull hps
    simpa using pag_go_py_exc cfg st et page_size e rest pref hfull hps 0 0 []

/-- Witness for C6 (amended) at a concrete input: one full page of size
2 followed by an API error propagates the error, while followed by any
other exception it yields the partial page as a success. -/
theorem C6_error_paths_witness :
    (get_audit_logs_paginated cfg0 none none 2 none
        [FetchOutcome.ok [5, 6], FetchOutcome.apiErr "boom"]).1 = Except.error "boom" ∧
    (get_audit_logs_paginated cfg0 none none 2 none
        [FetchOutcome.ok [5, 6], FetchOutcome.pyExc "oops"]).1 = Except.ok [5, 6] := by
  constructor
  · simpa using (C6_error_paths Nat).1 cfg0 none none 2 "boom" []
      [[5, 6]] (by simp) (by decide)
  · simpa using (C6_error_paths Nat).2 cfg0 none none 2 "oops" []
      [[5, 6]] (by simp) (by decide)

/-- C8: the timestamp returned by `create_crusoe_signature` is the
second-precision rendering of the wall-clock reading with microseconds
stripped (no fractional part), with a literal `T` separator and the
UTC-offset suffix; it does not depend on the reading's microsecond
field; and the header's signature is computed over the payload that
embeds exactly this returned timestamp string, so the header timestamp
and the payload timestamp are byte-for-byte identical. -/
theorem C8_timestamp_header_payload
    (access_key_id secret_key method path query_params : String)
    (now : PyDateTime) (ts hdr : String)
    (h : create_crusoe_signature access_key_id secret_key method path query_params now =
      some (ts, hdr)) :
    ts = pad4 now.year ++ "-" ++ pad2 now.month ++ "-" ++ pad2 now.day ++ "T" ++
      pad2 now.hour ++ ":" ++ pad2 now.minute ++ ":" ++ pad2 now.second ++
      tzSuffix now.offsetMinutes ∧
    (∀ u : Nat, create_crusoe_signature access_key_id secret_key method path query_params
      { now with microsecond := u } = some (ts, hdr)) ∧
    ∃ key payload_bytes, b64urlDecode (pad_secret secret_key) = some key ∧
      asciiEncode (path ++ "\n" ++ query_params ++ "\n" ++ method ++ "\n" ++ ts ++ "\n") =
        some payload_bytes ∧
      hdr = "Bearer " ++ (signature_version ++ ":" ++ access_key_id ++ ":" ++
        rstripEq (b64urlEncode (hmacSha256 key payload_bytes))) := by
  unfold create_crusoe_signature at h
  dsimp only at h
  rcases hsec : b64urlDecode (pad_secret secret_key) with _ | key
  · rw [hsec] at h
    exact absurd h (by simp)
  rcases hpay : asciiEncode (path ++ "\n" ++ query_params ++ "\n" ++ method ++ "\n" ++
      isoformat (replace_microsecond now 0) ++ "\n") with _ | pb
  · rw [hsec, hpay] at h
    exact absurd h (by simp)
  rw [hsec, hpay] at h
  have h2 : isoformat (replace_microsecond now 0) = ts ∧
      "Bearer " ++ (signature_version ++ ":" ++ access_key_id ++ ":" ++
        rstripEq (b64urlEncode (hmacSha256 key pb))) = hdr := by
    simpa using h
  obtain ⟨hts, hhdr⟩ := h2
  subst hts
  subst hhdr
  refine ⟨?_, ?_, key, pb, rfl, hpay, rfl⟩
  · simp [isoformat, replace_microsecond, String.append_empty]
  · intro u
    unfold create_crusoe_signature
    dsimp only
    have hrep : replace_microsecond { now with microsecond := u } 0 =
        replace_microsecond now 0 := rfl
    rw [hrep, hsec, hpay]

set_option maxRecDepth 200000 in
/-- Witness for C8 at a concrete input: the documentation timestamp
rendering for the fixed wall-clock reading `dt0`. -/
theorem C8_timestamp_header_payload_witness :
    "2022-03-01T01:23:45+09:00" =
      pad4 dt0.year ++ "-" ++ pad2 dt0.month ++ "-" ++ pad2 dt0.day ++ "T" ++
      pad2 dt0.hour ++ ":" ++ pad2 dt0.minute ++ ":" ++ pad2 dt0.second ++
      tzSuffix dt0.offsetMinutes :=
  (C8_timestamp_header_payload "ak" "QUJD" "GET" "/v1alpha5/locations" "" dt0
    "2022-03-01T01:23:45+09:00"
    "Bearer 1.0:ak:Z6aciktkQQweJK8Q-MWGYTk7ol0QmMydphfEj2s8bK8" (by rfl)).1

/-- Decoding succeeds only on character lists whose length is a
multiple of four (`n` bounds the recursion depth). -/
theorem b64urlDecodeChars_length_aux :
    ∀ (n : Nat) (cs : List Char), cs.length ≤ 4 * n →
      ∀ bs, b64urlDecodeChars cs = some bs → cs.length % 4 = 0 := by
  intro n
  induction n with
  | zero =>
      intro cs hlen bs _
      have : cs.length = 0 := by omega
      omega
  | succ n ih =>
      intro cs hlen bs h
      match cs with
      | [] => rfl
      | [c1] => simp [b64urlDecodeChars] at h
      | [c1, c2] => simp [b64urlDecodeChars] at h
      | [c1, c2, c3] => simp [b64urlDecodeChars] at h
      | c1 :: c2 :: c3 :: c4 :: rest =>
          show (rest.length + 4) % 4 = 0
          unfold b64urlDecodeChars at h
          rcases hv1 : b64Value c1 with _ | v1
          · rw [hv1] at h
            simp at h
          rw [hv1] at h
          rcases hv2 : b64Value c2 with _ | v2
          · rw [hv2] at h
            simp at h
          rw [hv2] at h
          dsimp only at h
          by_cases h3 : c3 = '='
          · rw [if_pos h3] at h
            by_cases h4 : c4 = '=' ∧ rest = []
            · obtain ⟨-, hr⟩ := h4
              subst hr
              rfl
            · rw [if_neg h4] at h
              exact absurd h (by simp)
          · rw [if_neg h3] at h
            rcases hv3 : b64Value c3 with _ | v3
            · rw [hv3] at h
              simp at h
            rw [hv3] at h
            dsimp only at h
            by_cases h4 : c4 = '='
            · rw [if_pos h4] at h
              by_cases hr : rest = []
              · subst hr
                rfl
              · rw [if_neg hr] at h
                exact absurd h (by simp)
            · rw [if_neg h4] at h
              rcases hv4 : b64Value c4 with _ | v4
              · rw [hv4] at h
                simp at h
              rw [hv4] at h
              dsimp only at h
              obtain ⟨bs2, hbs2, -⟩ := Option.map_eq_some'.mp h
              have hlen2 : rest.length ≤ 4 * n := by
                simp at hlen
                omega
              have := ih rest hlen2 bs2 hbs2
              omega

/-- The length of a decodable base64 string is a multiple of four. -/
theorem b64urlDecodeChars_length (cs : List Char) (bs : List Nat)
    (h : b64urlDecodeChars cs = some bs) : cs.length % 4 = 0 :=
  b64urlDecodeChars_length_aux cs.length cs (by omega) bs h

/-- C9: for every secret whose fully padded form is valid URL-safe
base64 and which is missing `k ≤ 3` trailing `=` padding characters,
appending `(-len mod 4)` characters of `=` restores exactly the fully
padded form, so decoding after re-padding succeeds and yields the same
bytes as decoding the fully padded secret, independently of `k`. -/
theorem C9_padding_restoration (S : String) (k : Nat) (bs : List Nat)
    (hk : k ≤ 3)
    (htail : S.data.drop (S.data.length - k) = List.replicate k '=')
    (hdec : b64urlDecode S = some bs) :
    pad_secret (String.mk (S.data.take (S.data.length - k))) = S ∧
    b64urlDecode (pad_secret (String.mk (S.data.take (S.data.length - k)))) = some bs := by
  have hmod : S.data.length % 4 = 0 := b64urlDecodeChars_length S.data bs hdec
  have hklen : k ≤ S.data.length := by
    by_contra hgt
    push_neg at hgt
    rw [Nat.sub_eq_zero_of_le (le_of_lt hgt)] at htail
    simp at htail
    have := congrArg List.length htail
    simp at this
    have hb2 : S.length = S.data.length := rfl
    omega
  have hlen_take : (S.data.take (S.data.length - k)).length = S.data.length - k := by
    simp [Nat.sub_le]
  have hbridge : S.length = S.data.length := rfl
  have hcount : (4 - (S.data.length - k) % 4) % 4 = k := by omega
  have hstr : pad_secret (String.mk (S.data.take (S.data.length - k))) = S := by
    apply String.ext
    show (String.mk (S.data.take (S.data.length - k))).data ++
      (String.mk (List.replicate ((4 - (String.mk (S.data.take (S.data.length - k))).length
        % 4) % 4) '=')).data = S.data
    show S.data.take (S.data.length - k) ++
      List.replicate ((4 - (S.data.take (S.data.length - k)).length % 4) % 4) '=' = S.data
    rw [hlen_take, hcount, ← htail, List.take_append_drop]
  refine ⟨hstr, ?_⟩
  rw [hstr]
  exact hdec

/-- Witness for C9 at a concrete input: `QQ==` with its two padding
characters removed re-pads to `QQ==` and decodes to the same byte. -/
theorem C9_padding_restoration_witness :
    pad_secret (String.mk ("QQ==".data.take ("QQ==".data.length - 2))) = "QQ==" ∧
    b64urlDecode (pad_secret (String.mk ("QQ==".data.take ("QQ==".data.length - 2)))) =
      some [65] :=
  C9_padding_restoration "QQ==" 2 [65] (by decide) (by decide) (by decide)

end CrusoeHec
